import Mathlib

/-!
Verification of the HCFPS task execution and retry/escalation engine.

The development shallowly embeds the Python sources of the repository:
- `src/terraform/lambda_function.py` (DLQ reprocessor),
- `src/docker/app.py` (`process_task`, the task executor),
- `src/docker/processor/format_detect.py`,
- `src/docker/processor/compress_zip.py`,
- `src/docker/processor/rename_file.py`.

Python strings are modelled as lists of characters (`Str`), and the
external world (cloud SDK calls, the filesystem, the clock) is modelled by
explicit oracle records whose fields record the observed result of each
external call in the run under consideration.  Side effects (status-store
writes, queue operations, notifications) are modelled as event traces.
-/

namespace HCFPS

/-- Python strings, modelled as lists of characters. -/
abbrev Str := List Char

/-- Coerce a Lean string literal to the `Str` model. -/
def str (s : String) : Str := s.data

/-- Python truthiness of an optional string: `None` and `""` are falsy. -/
def falsyOpt : Option Str → Bool
  | none => true
  | some s => s.isEmpty

/-- Negation of `falsyOpt`: the value is a non-empty string. -/
def truthy (o : Option Str) : Bool := !falsyOpt o

/-- `str.lower()` (ASCII, which covers every string the code compares). -/
def lowerStr (s : Str) : Str := s.map Char.toLower

/-- Python's substring test `pat in s`. -/
def containsStr : Str → Str → Bool
  | [], pat => pat.isEmpty
  | c :: rest, pat => pat.isPrefixOf (c :: rest) || containsStr rest pat

/-- Recursion core of `pyReplace`, structural on a fuel bound that always
dominates the length of the remaining string. -/
def pyReplaceAux (pat rep : Str) : Nat → Str → Str
  | _, [] => []
  | 0, s => s
  | fuel + 1, c :: rest =>
    if pat ≠ [] ∧ pat.isPrefixOf (c :: rest) then
      rep ++ pyReplaceAux pat rep fuel (rest.drop (pat.length - 1))
    else
      c :: pyReplaceAux pat rep fuel rest

/-- Python's `s.replace(pat, rep)`: replace every non-overlapping occurrence
of `pat`, scanning left to right.  All patterns used by the code are
non-empty; an empty pattern is treated as matching nowhere. -/
def pyReplace (pat rep s : Str) : Str := pyReplaceAux pat rep s.length s

/-- Python's `s.endswith(suffix)`. -/
def endsWithStr (s suffix : Str) : Bool := suffix.isSuffixOf s

/-- `os.path.basename`: the part of the path after the last `/`. -/
def basenameStr (p : Str) : Str :=
  (p.reverse.takeWhile (fun c => c ≠ '/')).reverse

/-- `os.path.splitext`: split off the extension beginning at the last dot
of the basename, provided some character of the basename strictly before
that dot is not itself a dot (so `.bashrc`-style names have no extension). -/
def splitextStr (p : Str) : Str × Str :=
  let revB := (basenameStr p).reverse
  let afterRev := revB.takeWhile (fun c => c ≠ '.')
  match revB.drop afterRev.length with
  | [] => (p, [])
  | _ :: preRev =>
    if preRev.reverse.any (fun c => c ≠ '.') then
      (p.take (p.length - (afterRev.length + 1)), '.' :: afterRev.reverse)
    else
      (p, [])

/-- Characters allowed in a URL scheme after the leading letter. -/
def isSchemeChar (c : Char) : Bool :=
  c.isAlphanum || c = '+' || c = '-' || c = '.'

/-- `urllib.parse.urlparse(u).path`: strip a valid `scheme:` prefix, then a
`//netloc` component, then anything from the first `?` or `#` on. -/
def urlPath (u : Str) : Str :=
  let pre := u.takeWhile (fun c => c ≠ ':')
  let rest :=
    if pre.length < u.length ∧ pre ≠ [] ∧
        (pre.headD 'a').isAlpha ∧ pre.all isSchemeChar then
      u.drop (pre.length + 1)
    else u
  let rest2 :=
    if (str "//").isPrefixOf rest then
      (rest.drop 2).dropWhile (fun c => c ≠ '/' ∧ c ≠ '?' ∧ c ≠ '#')
    else rest
  rest2.takeWhile (fun c => c ≠ '?' ∧ c ≠ '#')

/-! ## DLQ Reprocessor (`src/terraform/lambda_function.py`) -/

/-- The fields of the parsed JSON message body that `lambda_handler` and its
helpers read: `task_id`, an optional explicit `error_type`,
`original_message.source_path` (defaulted to `""`), and `retries`. -/
structure MsgBody where
  task_id : Option Str
  error_type : Option Str
  source_path : Str
  retries : Option Nat
deriving DecidableEq

/-- One SQS message as seen by `lambda_handler`.  `body = none` models a
body on which `json.loads` raises; `receiveCount = none` models a message
whose `ApproximateReceiveCount` attribute cannot be read as an integer
(both raise inside the per-message `try`).  `text` is `str(message)`, the
raw rendering that `get_error_type` searches for substrings. -/
structure SqsMessage where
  receiptHandle : Str
  body : Option MsgBody
  receiveCount : Option Nat
  text : Str
deriving DecidableEq

/-- Side effects performed while processing DLQ messages.  The queue URLs
are fixed module-level globals in the source and are elided. -/
inductive DlqEvent
  | statusWrite (taskId : Str) (errorType : Str) (retryCount : Nat)
  | requeue (body : MsgBody)
  | notify (taskId : Str) (errorType : Str)
  | deleteMsg (receiptHandle : Str)
deriving DecidableEq

def isStatusWrite : DlqEvent → Bool
  | DlqEvent.statusWrite _ _ _ => true
  | _ => false

def isRequeue : DlqEvent → Bool
  | DlqEvent.requeue _ => true
  | _ => false

def isNotify : DlqEvent → Bool
  | DlqEvent.notify _ _ => true
  | _ => false

def isDelete : DlqEvent → Bool
  | DlqEvent.deleteMsg _ => true
  | _ => false

/-- `get_error_type`: an explicit `error_type` in the body wins; otherwise
ordered case-insensitive substring rules over `str(message)`. -/
def get_error_type (body : MsgBody) (msgText : Str) : Str :=
  match body.error_type with
  | some e => e
  | none =>
    let sp := body.source_path
    let low := lowerStr msgText
    if containsStr low (str "access denied") then str "PERMISSION_ERROR"
    else if containsStr low (str "not found") then str "NOT_FOUND_ERROR"
    else if (str "s3://").isPrefixOf sp && containsStr msgText (str "NoSuchKey") then
      str "S3_FILE_NOT_FOUND"
    else if (str "gs://").isPrefixOf sp && containsStr msgText (str "does not exist") then
      str "GCS_FILE_NOT_FOUND"
    else if containsStr low (str "timeout") then str "TIMEOUT_ERROR"
    else str "UNKNOWN_ERROR"

/-- The fixed retriable set of `is_retriable_error`. -/
def retriable_errors : List Str :=
  [str "TIMEOUT_ERROR", str "TEMPORARY_FAILURE",
   str "CONNECTION_ERROR", str "RATE_LIMIT_ERROR"]

def is_retriable_error (errorType : Str) : Bool :=
  retriable_errors.contains errorType

/-- `requeue_message`'s mutation of the payload: increment `retries`,
treating an absent counter as 0. -/
def bumpRetries (b : MsgBody) : MsgBody :=
  { b with retries := some (match b.retries with | some r => r + 1 | none => 1) }

/-- The body of the per-message `try` block of `lambda_handler`, as the
trace of side effects it performs for one message.  A raise inside the
block (unparsable body, unreadable receive count) ends the trace early, in
particular before the `delete_message` call. -/
def processMessage (m : SqsMessage) : List DlqEvent :=
  match m.body with
  | none => []
  | some b =>
    if falsyOpt b.task_id then [DlqEvent.deleteMsg m.receiptHandle]
    else
      match m.receiveCount with
      | none => []
      | some cnt =>
        let tid := b.task_id.getD []
        let et := get_error_type b m.text
        let act :=
          if is_retriable_error et = true ∧ cnt ≤ 3 then
            DlqEvent.requeue (bumpRetries b)
          else
            DlqEvent.notify tid et
        [DlqEvent.statusWrite tid et cnt, act, DlqEvent.deleteMsg m.receiptHandle]

/-- Whether the per-message `try` block raised for this message (in which
case the message is left un-acknowledged). -/
def raisedDuring (m : SqsMessage) : Bool :=
  match m.body with
  | none => true
  | some b => !falsyOpt b.task_id && m.receiveCount.isNone

/-- The message loop of `lambda_handler`: each message of the batch is
processed inside its own `try`/`except`, so the batch trace is the
concatenation of the per-message traces. -/
def lambda_handler : List SqsMessage → List DlqEvent
  | [] => []
  | m :: rest => processMessage m ++ lambda_handler rest

/-! ## Format detector (`src/docker/processor/format_detect.py`) -/

/-- What the detector can observe about the local file and the process
environment: existence of the file, importability of the optional reader
libraries, and the outcome of the container-opening / probing calls.
`bagOpensOk` records whether the file would open as a valid ROS bag; the
source's `is_rosbag` never performs that open (its comment says "for quick
check just verify the extension"), so no definition below reads it. -/
structure FileEnv where
  present : Bool
  rosbagsAvailable : Bool
  mcapAvailable : Bool
  h5pyAvailable : Bool
  bagOpensOk : Bool
  hdf5OpensOk : Bool
  ffprobeReportsVideo : Bool
  gzipOk : Bool
  zipOk : Bool
deriving DecidableEq

def video_extensions : List Str :=
  [str ".mp4", str ".avi", str ".mov", str ".mkv", str ".wmv", str ".flv", str ".webm"]

def image_extensions : List Str :=
  [str ".jpg", str ".jpeg", str ".png", str ".gif", str ".bmp", str ".tiff", str ".webp"]

def archive_extensions : List Str :=
  [str ".zip", str ".tar", str ".gz", str ".bz2", str ".7z", str ".rar"]

/-- `is_rosbag`: extension check plus importability of the `rosbags`
library; the file itself is never opened. -/
def is_rosbag (p : Str) (fe : FileEnv) : Bool :=
  endsWithStr p (str ".bag") && fe.rosbagsAvailable

/-- `is_mcap`: extension check plus importability of the `mcap` library. -/
def is_mcap (p : Str) (fe : FileEnv) : Bool :=
  endsWithStr p (str ".mcap") && fe.mcapAvailable

/-- `is_hdf5`: extension check; when `h5py` imports, the file must also
open, and when it does not import, the extension alone decides. -/
def is_hdf5 (p : Str) (fe : FileEnv) : Bool :=
  (endsWithStr p (str ".h5") || endsWithStr p (str ".hdf5")) &&
    (if fe.h5pyAvailable then fe.hdf5OpensOk else true)

/-- `is_video`: extension in the known set, else whatever `ffprobe`
reports (a failed probe reports no video stream). -/
def is_video (p : Str) (fe : FileEnv) : Bool :=
  video_extensions.contains (lowerStr (splitextStr p).2) || fe.ffprobeReportsVideo

def is_image (p : Str) : Bool :=
  image_extensions.contains (lowerStr (splitextStr p).2)

def is_archive (p : Str) : Bool :=
  archive_extensions.contains (lowerStr (splitextStr p).2)

/-- Detector output.  The `mime_type` and `details` fields of the source
are best-effort metadata that no claim concerns; only `type` and
`extension` are modelled. -/
structure FormatInfo where
  type : Str
  extension : Str
deriving DecidableEq

/-- `detect_format`: first-match-wins classification chain. -/
def detect_format (p : Str) (fe : FileEnv) : FormatInfo :=
  if !fe.present then { type := str "unknown", extension := [] }
  else
    let extension := lowerStr (splitextStr p).2
    if is_rosbag p fe then { type := str "rosbag", extension := extension }
    else if is_mcap p fe then { type := str "mcap", extension := extension }
    else if is_hdf5 p fe then { type := str "hdf5", extension := extension }
    else if is_video p fe then { type := str "video", extension := extension }
    else if is_image p then { type := str "image", extension := extension }
    else if is_archive p then { type := str "archive", extension := extension }
    else { type := str "unknown", extension := extension }

/-! ## Compression (`src/docker/processor/compress_zip.py`) -/

/-- The two artifact shapes `compress_file` can produce. -/
inductive ArtifactKind
  | gzipStream
  | zipArchive
deriving DecidableEq

/-- Result of `compress_file`: the boolean the function returns together
with the branch it took (`none` when it returned before branching). -/
structure CompressResult where
  ok : Bool
  kind : Option ArtifactKind
deriving DecidableEq

/-- `compress_file`: missing input fails immediately; a (lowercased)
detected extension `.bag` selects whole-file gzip compression, everything
else a zip archive.  `fe.gzipOk` is the absence of an exception in the
gzip branch (whose success the function then reports unconditionally);
`fe.zipOk` folds together the archive construction and the non-empty
output post-condition of the zip branch, whose internals (include/exclude
patterns, password, entry naming) no claim concerns. -/
def compress_file (inputPath : Str) (fe : FileEnv) : CompressResult :=
  if !fe.present then { ok := false, kind := none }
  else if lowerStr (detect_format inputPath fe).extension = str ".bag" then
    { ok := fe.gzipOk, kind := some ArtifactKind.gzipStream }
  else
    { ok := fe.zipOk, kind := some ArtifactKind.zipArchive }

/-! ## Renaming (`src/docker/processor/rename_file.py`) -/

/-- The nondeterministic inputs of `process_pattern`: the strftime
renderings of `datetime.now()` and the generated UUID. -/
structure ClockEnv where
  timestamp : Str
  date : Str
  time : Str
  uuid : Str
deriving DecidableEq

/-- `process_pattern`: substitute the placeholder table into the pattern
in order, then re-append the input's extension when the computed name
dropped it. -/
def process_pattern (pattern inputPath : Str) (metadata : List (Str × Str))
    (ce : ClockEnv) : Str :=
  let input_filename := basenameStr inputPath
  let input_basename := (splitextStr input_filename).1
  let input_extension := (splitextStr input_filename).2
  let short_id := ce.uuid.takeWhile (fun c => c ≠ '-')
  let replacements : List (Str × Str) :=
    [(str "\x7bfilename\x7d", input_filename),
     (str "\x7bbasename\x7d", input_basename),
     (str "\x7bext\x7d", input_extension),
     (str "\x7btimestamp\x7d", ce.timestamp),
     (str "\x7bdate\x7d", ce.date),
     (str "\x7btime\x7d", ce.time),
     (str "\x7buuid\x7d", ce.uuid),
     (str "\x7buuid_short\x7d", short_id)] ++
    metadata.map (fun kv => (str "\x7bmeta." ++ kv.1 ++ str "\x7d", kv.2))
  let result := replacements.foldl (fun acc pr => pyReplace pr.1 pr.2 acc) pattern
  if !endsWithStr result input_extension &&
      !(basenameStr result).contains '.' &&
      !input_extension.isEmpty then
    result ++ input_extension
  else
    result

/-! ## Task executor (`src/docker/app.py`, `process_task`) -/

/-- The bucket-name environment variables read by the path fallbacks.
`os.environ.get` yields `none` for an unset variable; a set-but-empty
value is falsy in the source's `if bucket:` tests, which `falsyOpt`
captures. -/
structure BucketEnv where
  awsTempBucket : Option Str
  gcpTempBucket : Option Str
  awsDestinationBucket : Option Str
  gcpDestinationBucket : Option Str
deriving DecidableEq

/-- The fields of the inbound task message that `process_task` reads
(`params` is consumed only inside the transform operations, whose results
the oracles below record). -/
structure Task where
  task_id : Option Str
  action : Option Str
  source_path : Option Str
  output_path : Option Str
deriving DecidableEq

/-- Observed results of the executor's external calls in this run:
`download_file`, `convert_h265`, `rename_file` (each a `try`-wrapped
boolean that never raises), the `os.path.exists` check that `upload_file`
performs on the local output file, and the boolean result of the
`try`-wrapped scheme-specific upload (`upload_to_s3`/`upload_to_gcs`).
The compress operation is modelled by `compress_file` itself, and
`upload_file`'s own control flow (including its uncaught raise on a `None`
destination) by `upload_file` below. -/
structure OpEnv where
  downloadOk : Bool
  convertOk : Bool
  renameOk : Bool
  localOutputExists : Bool
  uploadOk : Bool
deriving DecidableEq

/-- How one `upload_file` call ends: a returned boolean, or the
`AttributeError` raised by calling `.startswith` on a `None`
destination URI. -/
inductive UploadOutcome
  | ret (value : Bool)
  | raisedNoneType
deriving DecidableEq

/-- The model label for the `AttributeError` message raised when the
destination URI is `None` (in Python: NoneType object has no attribute
startswith). -/
def upload_none_error : Str :=
  str "AttributeError: NoneType has no attribute startswith"

/-- `upload_file` (`src/docker/processor/storage_io.py`): a missing local
source file returns `False`; then the scheme dispatch
`destination_uri.startswith(...)` runs outside any `try`, so a `None`
destination raises `AttributeError`; an `s3://` or `gs://` destination
runs the `try`-wrapped cloud upload whose boolean result is `uploadOk`,
and any other string destination returns `False`. -/
def upload_file (sourceExists : Bool) (destination_uri : Option Str)
    (uploadOk : Bool) : UploadOutcome :=
  if !sourceExists then UploadOutcome.ret false
  else
    match destination_uri with
    | none => UploadOutcome.raisedNoneType
    | some uri =>
      if (str "s3://").isPrefixOf uri then UploadOutcome.ret uploadOk
      else if (str "gs://").isPrefixOf uri then UploadOutcome.ret uploadOk
      else UploadOutcome.ret false

/-- One `update_status` call (task id, status, optional error type). -/
structure StatusWrite where
  task_id : Str
  status : Str
  error_type : Option Str
deriving DecidableEq

/-- How one `process_task` invocation ends: a returned boolean, or an
exception escaping the function. -/
inductive ExecOutcome
  | ret (value : Bool)
  | raised (message : Str)
deriving DecidableEq

/-- Everything one `process_task` invocation produces: its outcome, the
ordered list of status-store writes, the resolved paths, the staged local
input path, and the branch taken by `compress_file` when it ran. -/
structure ExecResult where
  outcome : ExecOutcome
  writes : List StatusWrite
  source_path : Option Str
  output_path : Option Str
  local_input : Str
  compressed : Option ArtifactKind
deriving DecidableEq

/-- The `source_path` fallback of `process_task`: when falsy, synthesize
`scheme://temp_bucket/input_{task_id}` for the provider, or leave the
value unchanged when the bucket variable is unset or empty. -/
def resolve_source_path (t : Task) (provider : Str) (env : BucketEnv)
    (task_id : Str) : Option Str :=
  if falsyOpt t.source_path then
    if provider = str "aws" then
      match env.awsTempBucket with
      | some bucket =>
        if bucket.isEmpty then t.source_path
        else some (str "s3://" ++ bucket ++ str "/input_" ++ task_id)
      | none => t.source_path
    else if provider = str "gcp" then
      match env.gcpTempBucket with
      | some bucket =>
        if bucket.isEmpty then t.source_path
        else some (str "gs://" ++ bucket ++ str "/input_" ++ task_id)
      | none => t.source_path
    else t.source_path
  else t.source_path

/-- The `output_path` fallback of `process_task`.  For `convert_h265`
with a truthy source, the derived `{basename}_h265.mp4` goes to the
provider's destination bucket; the textual-substitution fallback sits on
the provider `else` branch, so it runs only when `provider` is neither
`aws` nor `gcp`, and an unset or empty destination bucket leaves the
value unchanged.  Every other action gets
`scheme://destination_bucket/output_{task_id}` under the same bucket
rules. -/
def resolve_output_path (t : Task) (provider : Str) (env : BucketEnv)
    (task_id : Str) (source_path : Option Str) : Option Str :=
  if falsyOpt t.output_path then
    if t.action = some (str "convert_h265") ∧ truthy source_path then
      let src := source_path.getD []
      let nameparts := splitextStr (basenameStr (urlPath src))
      let output_filename := nameparts.1 ++ str "_h265.mp4"
      if provider = str "aws" then
        match env.awsDestinationBucket with
        | some bucket =>
          if bucket.isEmpty then t.output_path
          else some (str "s3://" ++ bucket ++ str "/" ++ output_filename)
        | none => t.output_path
      else if provider = str "gcp" then
        match env.gcpDestinationBucket with
        | some bucket =>
          if bucket.isEmpty then t.output_path
          else some (str "gs://" ++ bucket ++ str "/" ++ output_filename)
        | none => t.output_path
      else
        some (pyReplace (nameparts.1 ++ nameparts.2) output_filename src)
    else
      if provider = str "aws" then
        match env.awsDestinationBucket with
        | some bucket =>
          if bucket.isEmpty then t.output_path
          else some (str "s3://" ++ bucket ++ str "/output_" ++ task_id)
        | none => t.output_path
      else if provider = str "gcp" then
        match env.gcpDestinationBucket with
        | some bucket =>
          if bucket.isEmpty then t.output_path
          else some (str "gs://" ++ bucket ++ str "/output_" ++ task_id)
        | none => t.output_path
      else t.output_path
  else t.output_path

def work_dir : Str := str "/tmp/processing"

/-- `task_data.get('task_id', 'unknown')`. -/
def tid (t : Task) : Str := t.task_id.getD (str "unknown")

/-- The source path after the fallback, as `process_task` uses it. -/
def resolved_source (t : Task) (provider : Str) (env : BucketEnv) : Option Str :=
  resolve_source_path t provider env (tid t)

/-- The output path after the fallback, as `process_task` uses it. -/
def resolved_output (t : Task) (provider : Str) (env : BucketEnv) : Option Str :=
  resolve_output_path t provider env (tid t) (resolved_source t provider env)

/-- The staged local input path
`os.path.join(work_dir, f"input_{task_id}{source_ext}")`, preserving the
extension of the (resolved) source path. -/
def staged_input (t : Task) (provider : Str) (env : BucketEnv) : Str :=
  let source_path := resolved_source t provider env
  let source_ext :=
    if truthy source_path then (splitextStr (source_path.getD [])).2 else []
  work_dir ++ str "/input_" ++ tid t ++ source_ext

/-- `process_task`: resolve paths, stage, download, dispatch on `action`,
upload, and record status.  Faithful control flow of the source:
- download failure writes `FAILED`/`download_failed` and returns `false`;
- `convert_h265` and `rename` turn an operation `false` into a
  `FAILED`/`processing_failed` write and a `false` return;
- `compress` turns an operation `false` into
  `raise Exception("Compression failed")`, which nothing in the function
  catches, so the invocation ends `raised` with no status write;
- an unrecognized action writes `FAILED`/`unknown_action`, then falls
  into the shared `if not ok` branch which writes
  `FAILED`/`processing_failed` as well, and returns `false`;
- the upload stage calls `upload_file(local_output, output_path)` with no
  enclosing `try`: a `False` return writes `FAILED`/`upload_failed`, a
  `True` return writes `SUCCESS` and returns `true`, and the
  `AttributeError` that `upload_file` raises on a `None` destination
  propagates out of `process_task` with no status write;
- `fe` describes the staged local input as the detector and
  `compress_file` see it. -/
def process_task (t : Task) (provider : Str) (env : BucketEnv)
    (fe : FileEnv) (ops : OpEnv) : ExecResult :=
  let task_id := tid t
  let source_path := resolved_source t provider env
  let output_path := resolved_output t provider env
  let local_input := staged_input t provider env
  let mk := fun (o : ExecOutcome) (w : List StatusWrite) (k : Option ArtifactKind) =>
    ({ outcome := o, writes := w, source_path := source_path,
       output_path := output_path, local_input := local_input,
       compressed := k } : ExecResult)
  let failed := fun (et : Str) (k : Option ArtifactKind) =>
    mk (ExecOutcome.ret false) [⟨task_id, str "FAILED", some et⟩] k
  let uploadStage := fun (k : Option ArtifactKind) =>
    match upload_file ops.localOutputExists output_path ops.uploadOk with
    | UploadOutcome.raisedNoneType => mk (ExecOutcome.raised upload_none_error) [] k
    | UploadOutcome.ret true =>
      mk (ExecOutcome.ret true) [⟨task_id, str "SUCCESS", none⟩] k
    | UploadOutcome.ret false => failed (str "upload_failed") k
  if !ops.downloadOk then failed (str "download_failed") none
  else if t.action = some (str "convert_h265") then
    if ops.convertOk then uploadStage none
    else failed (str "processing_failed") none
  else if t.action = some (str "compress") then
    let cr := compress_file local_input fe
    if cr.ok then uploadStage cr.kind
    else mk (ExecOutcome.raised (str "Compression failed")) [] cr.kind
  else if t.action = some (str "rename") then
    if ops.renameOk then uploadStage none
    else failed (str "processing_failed") none
  else
    mk (ExecOutcome.ret false)
      [⟨task_id, str "FAILED", some (str "unknown_action")⟩,
       ⟨task_id, str "FAILED", some (str "processing_failed")⟩] none

/-! ## Basic lemmas about the string model -/

theorem pyReplaceAux_nil (pat rep : Str) (fuel : Nat) :
    pyReplaceAux pat rep fuel [] = [] := by
  cases fuel <;> rfl

theorem pyReplaceAux_fuel (pat rep : Str) :
    ∀ f1 f2 s, s.length ≤ f1 → s.length ≤ f2 →
      pyReplaceAux pat rep f1 s = pyReplaceAux pat rep f2 s := by
  intro f1
  induction f1 with
  | zero =>
    intro f2 s h1 _
    have hs : s = [] := List.length_eq_zero.mp (Nat.le_zero.mp h1)
    subst hs
    simp [pyReplaceAux_nil]
  | succ f ih =>
    intro f2 s h1 h2
    cases s with
    | nil => simp [pyReplaceAux_nil]
    | cons c rest =>
      cases f2 with
      | zero => simp at h2
      | succ f2' =>
        by_cases hc : pat ≠ [] ∧ pat.isPrefixOf (c :: rest)
        · simp only [pyReplaceAux, if_pos hc]
          have hd : (rest.drop (pat.length - 1)).length ≤ rest.length := by
            simp
          have h1' : (rest.drop (pat.length - 1)).length ≤ f := by
            simp only [List.length_cons] at h1
            omega
          have h2' : (rest.drop (pat.length - 1)).length ≤ f2' := by
            simp only [List.length_cons] at h2
            omega
          rw [ih f2' _ h1' h2']
        · simp only [pyReplaceAux, if_neg hc]
          have h1' : rest.length ≤ f := by
            simp only [List.length_cons] at h1
            omega
          have h2' : rest.length ≤ f2' := by
            simp only [List.length_cons] at h2
            omega
          rw [ih f2' _ h1' h2']

theorem pyReplace_cons_miss (pat rep : Str) (c : Char) (rest : Str)
    (h : pat.isPrefixOf (c :: rest) = false) :
    pyReplace pat rep (c :: rest) = c :: pyReplace pat rep rest := by
  simp only [pyReplace, List.length_cons, pyReplaceAux]
  rw [if_neg]
  intro hc
  rw [hc.2] at h
  exact Bool.false_ne_true h.symm

theorem pyReplace_head_match (pat rep : Str) (hne : pat ≠ []) (rest : Str) :
    pyReplace pat rep (pat ++ rest) = rep ++ pyReplace pat rep rest := by
  cases pat with
  | nil => exact absurd rfl hne
  | cons p ps =>
    simp only [pyReplace, List.cons_append, List.length_cons, List.length_append,
      pyReplaceAux]
    rw [if_pos]
    · have hdrop : (ps.append rest).drop (ps.length + 1 - 1) = rest := by
        simp only [Nat.add_sub_cancel, List.append_eq]
        exact List.drop_left ps rest
      rw [hdrop, pyReplaceAux_fuel (p :: ps) rep _ rest.length rest
        (by simp only [List.append_eq, List.length_append]; omega) (Nat.le_refl _)]
    · refine ⟨hne, ?_⟩
      exact List.isPrefixOf_iff_prefix.mpr ⟨rest, by simp⟩

theorem pyReplace_no_occur (pat rep s : Str) (h : containsStr s pat = false) :
    pyReplace pat rep s = s := by
  induction s with
  | nil => rfl
  | cons c rest ih =>
    simp only [containsStr, Bool.or_eq_false_iff] at h
    rw [pyReplace_cons_miss pat rep c rest h.1, ih h.2]

theorem brace_isPrefixOf_false (pt : Str) (c : Char) (rest : Str)
    (hc : c ≠ '\x7b') :
    (('\x7b' :: pt).isPrefixOf (c :: rest)) = false := by
  simp only [List.isPrefixOf, Bool.and_eq_false_iff]
  left
  simp only [beq_eq_false_iff_ne, ne_eq]
  intro h
  exact hc h.symm

theorem pyReplace_brace_miss (pt rep s : Str) (h : ('\x7b' : Char) ∉ s) :
    pyReplace ('\x7b' :: pt) rep s = s := by
  induction s with
  | nil => rfl
  | cons c rest ih =>
    have hc : c ≠ '\x7b' := by
      intro he
      exact h (he ▸ List.mem_cons_self c rest)
    rw [pyReplace_cons_miss _ rep c rest (brace_isPrefixOf_false pt c rest hc),
      ih (fun hm => h (List.mem_cons_of_mem c hm))]

theorem pyReplace_append_no_brace (pt rep a s : Str)
    (h : ('\x7b' : Char) ∉ a) :
    pyReplace ('\x7b' :: pt) rep (a ++ s) = a ++ pyReplace ('\x7b' :: pt) rep s := by
  induction a with
  | nil => simp
  | cons c arest ih =>
    have hc : c ≠ '\x7b' := by
      intro he
      exact h (he ▸ List.mem_cons_self c arest)
    rw [List.cons_append,
      pyReplace_cons_miss _ rep c (arest ++ s) (brace_isPrefixOf_false pt c _ hc),
      ih (fun hm => h (List.mem_cons_of_mem c hm))]
    rfl

/-! ## Task executor lemmas -/

theorem process_task_output_path (t : Task) (p : Str) (env : BucketEnv)
    (fe : FileEnv) (ops : OpEnv) :
    (process_task t p env fe ops).output_path = resolved_output t p env := by
  simp only [process_task]
  repeat' split
  all_goals rfl

theorem process_task_source_path (t : Task) (p : Str) (env : BucketEnv)
    (fe : FileEnv) (ops : OpEnv) :
    (process_task t p env fe ops).source_path = resolved_source t p env := by
  simp only [process_task]
  repeat' split
  all_goals rfl

theorem process_task_local_input (t : Task) (p : Str) (env : BucketEnv)
    (fe : FileEnv) (ops : OpEnv) :
    (process_task t p env fe ops).local_input = staged_input t p env := by
  simp only [process_task]
  repeat' split
  all_goals rfl

theorem process_task_download_fail (t : Task) (p : Str) (env : BucketEnv)
    (fe : FileEnv) (ops : OpEnv) (hd : ops.downloadOk = false) :
    (process_task t p env fe ops).outcome = ExecOutcome.ret false ∧
    (process_task t p env fe ops).writes =
      [⟨tid t, str "FAILED", some (str "download_failed")⟩] := by
  simp [process_task, hd]

theorem process_task_compress_fail (t : Task) (p : Str) (env : BucketEnv)
    (fe : FileEnv) (ops : OpEnv)
    (ha : t.action = some (str "compress")) (hd : ops.downloadOk = true)
    (hc : (compress_file (staged_input t p env) fe).ok = false) :
    (process_task t p env fe ops).outcome =
      ExecOutcome.raised (str "Compression failed") ∧
    (process_task t p env fe ops).writes = [] ∧
    (process_task t p env fe ops).compressed =
      (compress_file (staged_input t p env) fe).kind := by
  have hne : ¬(str "compress" = str "convert_h265") := by decide
  simp [process_task, ha, hd, hne, hc]

theorem process_task_compress_ok (t : Task) (p : Str) (env : BucketEnv)
    (fe : FileEnv) (ops : OpEnv)
    (ha : t.action = some (str "compress")) (hd : ops.downloadOk = true)
    (hc : (compress_file (staged_input t p env) fe).ok = true) :
    (process_task t p env fe ops).compressed =
      (compress_file (staged_input t p env) fe).kind ∧
    (process_task t p env fe ops).writes =
      (match upload_file ops.localOutputExists (resolved_output t p env)
          ops.uploadOk with
       | UploadOutcome.raisedNoneType => []
       | UploadOutcome.ret true => [⟨tid t, str "SUCCESS", none⟩]
       | UploadOutcome.ret false =>
         [⟨tid t, str "FAILED", some (str "upload_failed")⟩]) ∧
    (process_task t p env fe ops).outcome =
      (match upload_file ops.localOutputExists (resolved_output t p env)
          ops.uploadOk with
       | UploadOutcome.raisedNoneType => ExecOutcome.raised upload_none_error
       | UploadOutcome.ret true => ExecOutcome.ret true
       | UploadOutcome.ret false => ExecOutcome.ret false) := by
  have hne : ¬(str "compress" = str "convert_h265") := by decide
  rcases hu : upload_file ops.localOutputExists (resolved_output t p env)
      ops.uploadOk with bv | _
  · cases bv
    · simp [process_task, ha, hd, hne, hc, hu]
    · simp [process_task, ha, hd, hne, hc, hu]
  · simp [process_task, ha, hd, hne, hc, hu]

theorem process_task_op_fail (t : Task) (p : Str) (env : BucketEnv)
    (fe : FileEnv) (ops : OpEnv) (hd : ops.downloadOk = true)
    (hf : (t.action = some (str "convert_h265") ∧ ops.convertOk = false) ∨
      (t.action = some (str "rename") ∧ ops.renameOk = false)) :
    (process_task t p env fe ops).outcome = ExecOutcome.ret false ∧
    (process_task t p env fe ops).writes =
      [⟨tid t, str "FAILED", some (str "processing_failed")⟩] := by
  rcases hf with ⟨ha, ho⟩ | ⟨ha, ho⟩
  · simp [process_task, ha, hd, ho]
  · have hne1 : ¬(str "rename" = str "convert_h265") := by decide
    have hne2 : ¬(str "rename" = str "compress") := by decide
    simp [process_task, ha, hd, hne1, hne2, ho]

theorem process_task_upload_stage (t : Task) (p : Str) (env : BucketEnv)
    (fe : FileEnv) (ops : OpEnv) (hd : ops.downloadOk = true)
    (hr : (t.action = some (str "convert_h265") ∧ ops.convertOk = true) ∨
      (t.action = some (str "rename") ∧ ops.renameOk = true)) :
    (process_task t p env fe ops).writes =
      (match upload_file ops.localOutputExists (resolved_output t p env)
          ops.uploadOk with
       | UploadOutcome.raisedNoneType => []
       | UploadOutcome.ret true => [⟨tid t, str "SUCCESS", none⟩]
       | UploadOutcome.ret false =>
         [⟨tid t, str "FAILED", some (str "upload_failed")⟩]) ∧
    (process_task t p env fe ops).outcome =
      (match upload_file ops.localOutputExists (resolved_output t p env)
          ops.uploadOk with
       | UploadOutcome.raisedNoneType => ExecOutcome.raised upload_none_error
       | UploadOutcome.ret true => ExecOutcome.ret true
       | UploadOutcome.ret false => ExecOutcome.ret false) := by
  rcases hr with ⟨ha, ho⟩ | ⟨ha, ho⟩
  · rcases hu : upload_file ops.localOutputExists (resolved_output t p env)
        ops.uploadOk with bv | _
    · cases bv
      · simp [process_task, ha, hd, ho, hu]
      · simp [process_task, ha, hd, ho, hu]
    · simp [process_task, ha, hd, ho, hu]
  · have hne1 : ¬(str "rename" = str "convert_h265") := by decide
    have hne2 : ¬(str "rename" = str "compress") := by decide
    rcases hu : upload_file ops.localOutputExists (resolved_output t p env)
        ops.uploadOk with bv | _
    · cases bv
      · simp [process_task, ha, hd, hne1, hne2, ho, hu]
      · simp [process_task, ha, hd, hne1, hne2, ho, hu]
    · simp [process_task, ha, hd, hne1, hne2, ho, hu]

theorem process_task_unknown_action (t : Task) (p : Str) (env : BucketEnv)
    (fe : FileEnv) (ops : OpEnv) (hd : ops.downloadOk = true)
    (h1 : t.action ≠ some (str "convert_h265"))
    (h2 : t.action ≠ some (str "compress"))
    (h3 : t.action ≠ some (str "rename")) :
    (process_task t p env fe ops).outcome = ExecOutcome.ret false ∧
    (process_task t p env fe ops).writes =
      [⟨tid t, str "FAILED", some (str "unknown_action")⟩,
       ⟨tid t, str "FAILED", some (str "processing_failed")⟩] := by
  simp [process_task, hd, h1, h2, h3]

/-! ## DLQ reprocessor claims -/

/-- Sample DLQ payload: explicit `TIMEOUT_ERROR`, with a task id. -/
def bT3 : MsgBody := ⟨some (str "t1"), some (str "TIMEOUT_ERROR"), [], none⟩

/-- `bT3` delivered with `ApproximateReceiveCount = 3`. -/
def mT3 : SqsMessage := ⟨str "r1", some bT3, some 3, []⟩

/-- `bT3` delivered with `ApproximateReceiveCount = 4`. -/
def mT4 : SqsMessage := ⟨str "r4", some bT3, some 4, []⟩

/-- `bT3` delivered with `ApproximateReceiveCount = 2`. -/
def mT2 : SqsMessage := ⟨str "r2", some bT3, some 2, []⟩

/-- Sample DLQ message whose parsed body has no `task_id`. -/
def mNoId : SqsMessage := ⟨str "r0", some ⟨none, some (str "TIMEOUT_ERROR"), [], none⟩, some 1, []⟩

/-- The trace of a fully processed message (parsed body, truthy task id,
readable receive count): status write, then requeue-or-notify, then
delete. -/
theorem processMessage_shape (m : SqsMessage) (b : MsgBody) (cnt : Nat)
    (hb : m.body = some b) (hid : falsyOpt b.task_id = false)
    (hc : m.receiveCount = some cnt) :
    processMessage m =
      [DlqEvent.statusWrite (b.task_id.getD []) (get_error_type b m.text) cnt,
       (if is_retriable_error (get_error_type b m.text) = true ∧ cnt ≤ 3 then
          DlqEvent.requeue (bumpRetries b)
        else
          DlqEvent.notify (b.task_id.getD []) (get_error_type b m.text)),
       DlqEvent.deleteMsg m.receiptHandle] := by
  simp only [processMessage, hb, hid, hc, Bool.false_eq_true, if_false]

/-- C3: a DLQ message (parsed, with task id and readable receive count) is
requeued to the main queue iff its classified error type is retriable and
its approximate receive count is at most 3; a `TIMEOUT_ERROR` at count 3
is requeued with its `retries` counter incremented, and the same message
at count 4 is notified and not requeued. -/
theorem dlq_requeue_iff (m : SqsMessage) (b : MsgBody) (cnt : Nat)
    (hb : m.body = some b) (hid : falsyOpt b.task_id = false)
    (hc : m.receiveCount = some cnt) :
    ((processMessage m).any isRequeue = true ↔
      is_retriable_error (get_error_type b m.text) = true ∧ cnt ≤ 3) ∧
    (get_error_type b m.text = str "TIMEOUT_ERROR" → cnt = 3 →
      DlqEvent.requeue (bumpRetries b) ∈ processMessage m) ∧
    (get_error_type b m.text = str "TIMEOUT_ERROR" → cnt = 4 →
      DlqEvent.notify (b.task_id.getD []) (str "TIMEOUT_ERROR") ∈ processMessage m ∧
      (processMessage m).any isRequeue = false) := by
  rw [processMessage_shape m b cnt hb hid hc]
  refine ⟨?_, ?_, ?_⟩
  · by_cases hr : is_retriable_error (get_error_type b m.text) = true ∧ cnt ≤ 3
    · simp [hr, isRequeue]
    · simp [hr, isRequeue, isStatusWrite, isDelete]
  · intro ht h3
    subst h3
    have hr : is_retriable_error (get_error_type b m.text) = true := by
      rw [ht]
      decide
    simp [hr]
  · intro ht h4
    subst h4
    have hr : ¬(is_retriable_error (get_error_type b m.text) = true ∧ 4 ≤ 3) := by
      intro hx
      omega
    simp [hr, isRequeue, isStatusWrite, isDelete, ht]

/-- C3 witness: the concrete `TIMEOUT_ERROR` message is requeued at
receive count 3 and notified, not requeued, at count 4. -/
theorem dlq_requeue_iff_witness :
    DlqEvent.requeue (bumpRetries bT3) ∈ processMessage mT3 ∧
    DlqEvent.notify (str "t1") (str "TIMEOUT_ERROR") ∈ processMessage mT4 ∧
    (processMessage mT4).any isRequeue = false :=
  ⟨(dlq_requeue_iff mT3 bT3 3 rfl (by decide) rfl).2.1 rfl rfl,
   ((dlq_requeue_iff mT4 bT3 4 rfl (by decide) rfl).2.2 rfl rfl).1,
   ((dlq_requeue_iff mT4 bT3 4 rfl (by decide) rfl).2.2 rfl rfl).2⟩

/-- C4 counterexample: a retry-eligible message (`TIMEOUT_ERROR`, receive
count 2) is requeued, yet the reprocessor also writes a `FAILED` record
for it, so the status store is not left unchanged on the requeue path. -/
theorem dlq_retry_writes_failed_counterexample :
    processMessage mT2 =
      [DlqEvent.statusWrite (str "t1") (str "TIMEOUT_ERROR") 2,
       DlqEvent.requeue (bumpRetries bT3),
       DlqEvent.deleteMsg (str "r2")] ∧
    (processMessage mT2).any isRequeue = true ∧
    (processMessage mT2).any isStatusWrite = true := by decide

/-- C4 amended: on the retry path the reprocessor increments `retries`
(absent counter treated as 0) and republishes, but the `FAILED` status
write with the classified error type and receive count happens
unconditionally before the retry decision, so it is performed for
requeued messages as well as permanent ones. -/
theorem dlq_retry_path (m : SqsMessage) (b : MsgBody) (cnt : Nat)
    (hb : m.body = some b) (hid : falsyOpt b.task_id = false)
    (hc : m.receiveCount = some cnt)
    (hr : is_retriable_error (get_error_type b m.text) = true)
    (hcnt : cnt ≤ 3) :
    processMessage m =
      [DlqEvent.statusWrite (b.task_id.getD []) (get_error_type b m.text) cnt,
       DlqEvent.requeue (bumpRetries b),
       DlqEvent.deleteMsg m.receiptHandle] ∧
    (bumpRetries b).retries = some (b.retries.getD 0 + 1) := by
  constructor
  · rw [processMessage_shape m b cnt hb hid hc, if_pos ⟨hr, hcnt⟩]
  · cases hrt : b.retries <;> simp [bumpRetries, hrt]

/-- C4 amended witness: the concrete retry-eligible message at count 2. -/
theorem dlq_retry_path_witness :
    processMessage mT2 =
      [DlqEvent.statusWrite (str "t1") (str "TIMEOUT_ERROR") 2,
       DlqEvent.requeue (bumpRetries bT3),
       DlqEvent.deleteMsg (str "r2")] ∧
    (bumpRetries bT3).retries = some 1 :=
  dlq_retry_path mT2 bT3 2 rfl (by decide) rfl (by decide) (by decide)

/-- C7 counterexample: a DLQ message whose body has no `task_id` is
deleted from the queue although no status write, requeue or notification
was performed for it, so deletion does not always happen after a
corresponding side effect. -/
theorem dlq_delete_without_side_effect_counterexample :
    processMessage mNoId = [DlqEvent.deleteMsg (str "r0")] ∧
    (processMessage mNoId).any isStatusWrite = false ∧
    (processMessage mNoId).any isRequeue = false ∧
    (processMessage mNoId).any isNotify = false := by decide

/-- C7 amended: for every DLQ message carrying a (truthy) `task_id`,
deletion is the final event and is preceded by the status write and by the
requeue-or-notification side effect; a message on which processing raised
is never deleted; and the batch trace decomposes per message, so one
message's fate does not affect the processing of the others. -/
theorem dlq_delete_ordering :
    (∀ (m : SqsMessage) (b : MsgBody) (cnt : Nat),
      m.body = some b → falsyOpt b.task_id = false → m.receiveCount = some cnt →
      ∀ (l1 l2 : List DlqEvent) (e : DlqEvent),
        processMessage m = l1 ++ e :: l2 → isDelete e = true →
        l2 = [] ∧ l1.any isStatusWrite = true ∧
          l1.any (fun x => isRequeue x || isNotify x) = true) ∧
    (∀ m : SqsMessage, raisedDuring m = true →
      ∀ e ∈ processMessage m, isDelete e = false) ∧
    (∀ ms1 ms2 : List SqsMessage,
      lambda_handler (ms1 ++ ms2) = lambda_handler ms1 ++ lambda_handler ms2) := by
  refine ⟨?_, ?_, ?_⟩
  · intro m b cnt hb hid hc l1 l2 e hEq hDel
    rw [processMessage_shape m b cnt hb hid hc] at hEq
    cases l1 with
    | nil =>
      simp only [List.nil_append, List.cons.injEq] at hEq
      rw [← hEq.1] at hDel
      simp [isDelete] at hDel
    | cons a1 t1 =>
      cases t1 with
      | nil =>
        simp only [List.cons_append, List.nil_append, List.cons.injEq] at hEq
        rcases hEq with ⟨_, h2, _⟩
        by_cases hr : is_retriable_error (get_error_type b m.text) = true ∧ cnt ≤ 3
        · rw [if_pos hr] at h2
          rw [← h2] at hDel
          simp [isDelete] at hDel
        · rw [if_neg hr] at h2
          rw [← h2] at hDel
          simp [isDelete] at hDel
      | cons a2 t2 =>
        cases t2 with
        | nil =>
          simp only [List.cons_append, List.nil_append, List.cons.injEq] at hEq
          rcases hEq with ⟨h1, h2, _, h4⟩
          subst h1
          subst h2
          refine ⟨h4.symm, by simp [isStatusWrite], ?_⟩
          by_cases hr : is_retriable_error (get_error_type b m.text) = true ∧ cnt ≤ 3
          · simp [hr, isRequeue]
          · simp [hr, isNotify]
        | cons a3 t3 =>
          simp only [List.cons_append, List.cons.injEq] at hEq
          rcases hEq with ⟨_, _, _, h4⟩
          simp at h4
  · intro m hRaised e heMem
    rcases hBody : m.body with _ | b
    · rw [processMessage, hBody] at heMem
      cases heMem
    · simp only [raisedDuring, hBody, Bool.and_eq_true, Bool.not_eq_true',
        Option.isNone_iff_eq_none] at hRaised
      simp only [processMessage, hBody, hRaised.1, hRaised.2, Bool.false_eq_true,
        if_false, List.not_mem_nil] at heMem
  · intro ms1 ms2
    induction ms1 with
    | nil => rfl
    | cons m rest ih =>
      simp only [List.cons_append, lambda_handler, List.append_eq, ih, List.append_assoc]

/-- C7 amended witness: instances of the three conjuncts at concrete
messages and a concrete two-message batch. -/
theorem dlq_delete_ordering_witness :
    ([DlqEvent.statusWrite (str "t1") (str "TIMEOUT_ERROR") 3,
      DlqEvent.requeue (bumpRetries bT3)].any isStatusWrite = true) ∧
    (∀ e ∈ processMessage ⟨str "r9", none, some 1, []⟩, isDelete e = false) ∧
    lambda_handler ([mNoId] ++ [mT3]) = lambda_handler [mNoId] ++ lambda_handler [mT3] :=
  ⟨(dlq_delete_ordering.1 mT3 bT3 3 rfl (by decide) rfl
      [DlqEvent.statusWrite (str "t1") (str "TIMEOUT_ERROR") 3,
       DlqEvent.requeue (bumpRetries bT3)]
      [] (DlqEvent.deleteMsg (str "r1")) (by decide) rfl).2.1,
   dlq_delete_ordering.2.1 ⟨str "r9", none, some 1, []⟩ rfl,
   dlq_delete_ordering.2.2 [mNoId] [mT3]⟩

/-- C10: a DLQ message whose parsed body has no `task_id` is deleted from
the dead-letter queue and skipped: its whole trace is the delete, with no
status write, no requeue and no notification. -/
theorem dlq_no_task_id_dropped (m : SqsMessage) (b : MsgBody)
    (hb : m.body = some b) (hid : b.task_id = none) :
    processMessage m = [DlqEvent.deleteMsg m.receiptHandle] ∧
    (processMessage m).all
      (fun e => !isStatusWrite e && !isRequeue e && !isNotify e) = true := by
  have h1 : processMessage m = [DlqEvent.deleteMsg m.receiptHandle] := by
    simp [processMessage, hb, hid, falsyOpt]
  refine ⟨h1, ?_⟩
  rw [h1]
  rfl

/-- C10 witness: the concrete id-less message. -/
theorem dlq_no_task_id_dropped_witness :
    processMessage mNoId = [DlqEvent.deleteMsg (str "r0")] :=
  (dlq_no_task_id_dropped mNoId ⟨none, some (str "TIMEOUT_ERROR"), [], none⟩ rfl rfl).1

/-! ## Task executor claims -/

/-- File oracle for a staged `.bag` input whose gzip compression raises
(`gzipOk = false`), so `compress_file` returns `False`. -/
def feGzipFail : FileEnv := ⟨true, true, true, true, false, true, false, false, true⟩

/-- File oracle for a staged input whose container opens and compressions
succeed, but which is not a valid ROS bag (`bagOpensOk = false`). -/
def feBagInvalid : FileEnv := ⟨true, true, true, true, false, true, false, true, true⟩

/-- All external operations succeed. -/
def opsAllOk : OpEnv := ⟨true, true, true, true, true⟩

/-- Environment with only `AWS_DESTINATION_BUCKET=out` set. -/
def envOut : BucketEnv := ⟨none, none, some (str "out"), none⟩

/-- Environment with no bucket variables set. -/
def envUnset : BucketEnv := ⟨none, none, none, none⟩

/-- A compress task on `s3://in/data.bag` with no output path. -/
def taskCompress : Task :=
  ⟨some (str "t1"), some (str "compress"), some (str "s3://in/data.bag"), none⟩

/-- A task with an unrecognized action. -/
def taskUnknown : Task :=
  ⟨some (str "t1"), some (str "frobnicate"), some (str "s3://in/a.txt"),
   some (str "s3://out/o")⟩

/-- A convert task on `s3://in/data.bag` with no output path. -/
def taskConvert : Task :=
  ⟨some (str "t1"), some (str "convert_h265"), some (str "s3://in/data.bag"), none⟩

/-- A rename task with no output path (so with the destination bucket
unset the resolved output stays `None`). -/
def taskRename : Task :=
  ⟨some (str "t1"), some (str "rename"), some (str "s3://in/a.txt"), none⟩

/-- C1 counterexample: for a concrete compress task whose compress
operation returns `False`, `process_task` ends with the exception
`Compression failed` escaping it and performs no status write at all — in
particular no `FAILED`/`processing_failed` record and no `false`
return. -/
theorem compress_fault_escapes_counterexample :
    (process_task taskCompress (str "aws") envOut feGzipFail opsAllOk).outcome =
      ExecOutcome.raised (str "Compression failed") ∧
    (process_task taskCompress (str "aws") envOut feGzipFail opsAllOk).writes = [] := by
  decide

/-- C1 amended: when the compress operation reports failure, the executor
raises `Exception("Compression failed")` and nothing inside `process_task`
catches it: the invocation ends with the exception escaping the executor's
boundary, no `FAILED` status is written and no boolean is returned (the
HTTP handler above the executor is what catches it). -/
theorem compress_fault_escapes (t : Task) (p : Str) (env : BucketEnv)
    (fe : FileEnv) (ops : OpEnv)
    (ha : t.action = some (str "compress")) (hd : ops.downloadOk = true)
    (hc : (compress_file (staged_input t p env) fe).ok = false) :
    (process_task t p env fe ops).outcome =
      ExecOutcome.raised (str "Compression failed") ∧
    (process_task t p env fe ops).writes = [] :=
  ⟨(process_task_compress_fail t p env fe ops ha hd hc).1,
   (process_task_compress_fail t p env fe ops ha hd hc).2.1⟩

/-- C1 amended witness: the concrete failing compress task. -/
theorem compress_fault_escapes_witness :
    (process_task taskCompress (str "aws") envOut feGzipFail opsAllOk).outcome =
      ExecOutcome.raised (str "Compression failed") :=
  (compress_fault_escapes taskCompress (str "aws") envOut feGzipFail opsAllOk
    rfl rfl (by decide)).1

/-- C2 counterexample: a task with the unrecognized action `frobnicate`
(download succeeding) gets two `FAILED` status writes with different
error types — first `unknown_action`, then `processing_failed` — not a
single write with `unknown_action`. -/
theorem single_terminal_write_counterexample :
    (process_task taskUnknown (str "aws") envOut feGzipFail opsAllOk).writes =
      [⟨str "t1", str "FAILED", some (str "unknown_action")⟩,
       ⟨str "t1", str "FAILED", some (str "processing_failed")⟩] := by
  decide

/-- C2 amended: one `process_task` invocation never writes both `SUCCESS`
and `FAILED`.  A failed download yields exactly one
`FAILED`/`download_failed` write; a convert or rename whose operation
returns `false` yields exactly one `FAILED`/`processing_failed` write; a
compress whose operation fails yields zero writes (the executor raises
`Compression failed`); when the transform succeeds, the upload stage
yields exactly one terminal write (`SUCCESS` or `FAILED`/`upload_failed`)
unless the resolved `output_path` is `None`, in which case `upload_file`
raises an uncaught `AttributeError` and zero writes occur; and an
unrecognized action yields two `FAILED` writes, `unknown_action`
followed by `processing_failed`. -/
theorem executor_terminal_writes (t : Task) (p : Str) (env : BucketEnv)
    (fe : FileEnv) (ops : OpEnv) :
    (¬(((process_task t p env fe ops).writes.any
          (fun w => w.status == str "SUCCESS")) = true ∧
       ((process_task t p env fe ops).writes.any
          (fun w => w.status == str "FAILED")) = true)) ∧
    (ops.downloadOk = false →
      (process_task t p env fe ops).writes =
        [⟨tid t, str "FAILED", some (str "download_failed")⟩]) ∧
    (ops.downloadOk = true →
      ((t.action = some (str "convert_h265") ∧ ops.convertOk = false) ∨
       (t.action = some (str "rename") ∧ ops.renameOk = false)) →
      (process_task t p env fe ops).writes =
        [⟨tid t, str "FAILED", some (str "processing_failed")⟩]) ∧
    (ops.downloadOk = true → t.action = some (str "compress") →
      (compress_file (staged_input t p env) fe).ok = false →
      (process_task t p env fe ops).writes = [] ∧
      (process_task t p env fe ops).outcome =
        ExecOutcome.raised (str "Compression failed")) ∧
    (ops.downloadOk = true →
      ((t.action = some (str "convert_h265") ∧ ops.convertOk = true) ∨
       (t.action = some (str "rename") ∧ ops.renameOk = true) ∨
       (t.action = some (str "compress") ∧
         (compress_file (staged_input t p env) fe).ok = true)) →
      ((upload_file ops.localOutputExists (resolved_output t p env)
          ops.uploadOk = UploadOutcome.raisedNoneType →
        (process_task t p env fe ops).writes = [] ∧
        (process_task t p env fe ops).outcome =
          ExecOutcome.raised upload_none_error) ∧
       (∀ bv : Bool,
        upload_file ops.localOutputExists (resolved_output t p env)
          ops.uploadOk = UploadOutcome.ret bv →
        (process_task t p env fe ops).writes =
          (if bv then [⟨tid t, str "SUCCESS", none⟩]
           else [⟨tid t, str "FAILED", some (str "upload_failed")⟩])))) ∧
    (ops.downloadOk = true → t.action ≠ some (str "convert_h265") →
      t.action ≠ some (str "compress") → t.action ≠ some (str "rename") →
      (process_task t p env fe ops).writes =
        [⟨tid t, str "FAILED", some (str "unknown_action")⟩,
         ⟨tid t, str "FAILED", some (str "processing_failed")⟩]) := by
  refine ⟨?_, ?_, ?_, ?_, ?_, ?_⟩
  · rintro ⟨hS, hF⟩
    have refute : ∀ L : List StatusWrite,
        (process_task t p env fe ops).writes = L →
        (L.any (fun w => w.status == str "SUCCESS") = false ∨
         L.any (fun w => w.status == str "FAILED") = false) → False := by
      intro L hL hor
      rcases hor with h | h
      · rw [hL, h] at hS
        cases hS
      · rw [hL, h] at hF
        cases hF
    have uploadCases : ∀ hw : (process_task t p env fe ops).writes =
        (match upload_file ops.localOutputExists (resolved_output t p env)
            ops.uploadOk with
         | UploadOutcome.raisedNoneType => []
         | UploadOutcome.ret true => [⟨tid t, str "SUCCESS", none⟩]
         | UploadOutcome.ret false =>
           [⟨tid t, str "FAILED", some (str "upload_failed")⟩]), False := by
      intro hw
      rcases hu : upload_file ops.localOutputExists (resolved_output t p env)
          ops.uploadOk with bv | _
      · cases bv
        · simp only [hu] at hw
          exact refute _ hw (Or.inl (by
            simp only [List.any_cons, List.any_nil, Bool.or_false]
            all_goals decide))
        · simp only [hu] at hw
          exact refute _ hw (Or.inr (by
            simp only [List.any_cons, List.any_nil, Bool.or_false]
            all_goals decide))
      · simp only [hu] at hw
        exact refute _ hw (Or.inl (by simp only [List.any_nil]))
    by_cases hd : ops.downloadOk = true
    · by_cases hcv : t.action = some (str "convert_h265")
      · by_cases hop : ops.convertOk = true
        · exact uploadCases
            (process_task_upload_stage t p env fe ops hd (Or.inl ⟨hcv, hop⟩)).1
        · rw [Bool.not_eq_true] at hop
          exact refute _
            (process_task_op_fail t p env fe ops hd (Or.inl ⟨hcv, hop⟩)).2
            (Or.inl (by
              simp only [List.any_cons, List.any_nil, Bool.or_false]
              all_goals decide))
      · by_cases hrn : t.action = some (str "rename")
        · by_cases hop : ops.renameOk = true
          · exact uploadCases
              (process_task_upload_stage t p env fe ops hd (Or.inr ⟨hrn, hop⟩)).1
          · rw [Bool.not_eq_true] at hop
            exact refute _
              (process_task_op_fail t p env fe ops hd (Or.inr ⟨hrn, hop⟩)).2
              (Or.inl (by
                simp only [List.any_cons, List.any_nil, Bool.or_false]
                all_goals decide))
        · by_cases hcp : t.action = some (str "compress")
          · by_cases hok : (compress_file (staged_input t p env) fe).ok = true
            · exact uploadCases
                (process_task_compress_ok t p env fe ops hcp hd hok).2.1
            · rw [Bool.not_eq_true] at hok
              exact refute _
                (process_task_compress_fail t p env fe ops hcp hd hok).2.1
                (Or.inl (by simp only [List.any_nil]))
          · exact refute _
              (process_task_unknown_action t p env fe ops hd hcv hcp hrn).2
              (Or.inl (by
                simp only [List.any_cons, List.any_nil, Bool.or_false]
                all_goals decide))
    · rw [Bool.not_eq_true] at hd
      exact refute _ (process_task_download_fail t p env fe ops hd).2
        (Or.inl (by
          simp only [List.any_cons, List.any_nil, Bool.or_false]
          all_goals decide))
  · intro hd
    exact (process_task_download_fail t p env fe ops (by rw [hd])).2
  · intro hd hf
    exact (process_task_op_fail t p env fe ops hd hf).2
  · intro hd ha hok
    exact ⟨(process_task_compress_fail t p env fe ops ha hd hok).2.1,
      (process_task_compress_fail t p env fe ops ha hd hok).1⟩
  · intro hd hr
    have stage : (process_task t p env fe ops).writes =
        (match upload_file ops.localOutputExists (resolved_output t p env)
            ops.uploadOk with
         | UploadOutcome.raisedNoneType => []
         | UploadOutcome.ret true => [⟨tid t, str "SUCCESS", none⟩]
         | UploadOutcome.ret false =>
           [⟨tid t, str "FAILED", some (str "upload_failed")⟩]) ∧
        (process_task t p env fe ops).outcome =
        (match upload_file ops.localOutputExists (resolved_output t p env)
            ops.uploadOk with
         | UploadOutcome.raisedNoneType => ExecOutcome.raised upload_none_error
         | UploadOutcome.ret true => ExecOutcome.ret true
         | UploadOutcome.ret false => ExecOutcome.ret false) := by
      rcases hr with h | h | h
      · exact process_task_upload_stage t p env fe ops hd (Or.inl h)
      · exact process_task_upload_stage t p env fe ops hd (Or.inr h)
      · exact ⟨(process_task_compress_ok t p env fe ops h.1 hd h.2).2.1,
          (process_task_compress_ok t p env fe ops h.1 hd h.2).2.2⟩
    constructor
    · intro hu
      have hw := stage.1
      have ho := stage.2
      simp only [hu] at hw ho
      exact ⟨hw, ho⟩
    · intro bv hu
      have hw := stage.1
      cases bv
      · simp only [hu] at hw
        simpa using hw
      · simp only [hu] at hw
        simpa using hw
  · intro hd h1 h2 h3
    exact (process_task_unknown_action t p env fe ops hd h1 h2 h3).2

/-- C2 amended witness: the unrecognized-action conjunct at the concrete
`frobnicate` task, and the upload-stage raise at a concrete rename task
whose resolved output path stays `None` (destination bucket unset). -/
theorem executor_terminal_writes_witness :
    ((process_task taskUnknown (str "aws") envOut feGzipFail opsAllOk).writes =
      [⟨str "t1", str "FAILED", some (str "unknown_action")⟩,
       ⟨str "t1", str "FAILED", some (str "processing_failed")⟩]) ∧
    ((process_task taskRename (str "aws") envUnset feBagInvalid opsAllOk).writes =
      [] ∧
     (process_task taskRename (str "aws") envUnset feBagInvalid opsAllOk).outcome =
      ExecOutcome.raised upload_none_error) := by
  constructor
  · exact (executor_terminal_writes taskUnknown (str "aws") envOut feGzipFail
      opsAllOk).2.2.2.2.2 rfl (by decide) (by decide) (by decide)
  · exact ((executor_terminal_writes taskRename (str "aws") envUnset feBagInvalid
      opsAllOk).2.2.2.2.1 rfl (Or.inr (Or.inl ⟨rfl, rfl⟩))).1 (by decide)

/-- C6 counterexample: a convert task with empty `output_path`, non-empty
`source_path`, provider `aws` and an unset destination bucket leaves
`output_path` empty: the textual-substitution fallback does not run for
provider `aws`. -/
theorem convert_output_fallback_counterexample :
    taskConvert.output_path = none ∧
    taskConvert.action = some (str "convert_h265") ∧
    taskConvert.source_path = some (str "s3://in/data.bag") ∧
    envUnset.awsDestinationBucket = none ∧
    (process_task taskConvert (str "aws") envUnset feBagInvalid opsAllOk).output_path =
      none := by
  decide

/-- C6 amended: for a task with empty `output_path`, action
`convert_h265` and non-empty `source_path`, the executor derives
`{basename(source)}_h265.mp4` in the provider's destination bucket when
provider is `aws` or `gcp` and that bucket is set non-empty; when the
bucket is unset or empty for those providers, `output_path` is left
unchanged (empty); the textual substitution of the new filename into
`source_path` happens only when the provider is neither `aws` nor
`gcp`. -/
theorem convert_output_fallback (t : Task) (p : Str) (env : BucketEnv)
    (fe : FileEnv) (ops : OpEnv) (s b : Str)
    (hout : falsyOpt t.output_path = true)
    (ha : t.action = some (str "convert_h265"))
    (hsrc : t.source_path = some s) (hs : s ≠ []) :
    (p = str "aws" → env.awsDestinationBucket = some b → b ≠ [] →
      (process_task t p env fe ops).output_path =
        some (str "s3://" ++ b ++ str "/" ++
          (splitextStr (basenameStr (urlPath s))).1 ++ str "_h265.mp4")) ∧
    (p = str "aws" → falsyOpt env.awsDestinationBucket = true →
      (process_task t p env fe ops).output_path = t.output_path) ∧
    (p = str "gcp" → env.gcpDestinationBucket = some b → b ≠ [] →
      (process_task t p env fe ops).output_path =
        some (str "gs://" ++ b ++ str "/" ++
          (splitextStr (basenameStr (urlPath s))).1 ++ str "_h265.mp4")) ∧
    (p = str "gcp" → falsyOpt env.gcpDestinationBucket = true →
      (process_task t p env fe ops).output_path = t.output_path) ∧
    (p ≠ str "aws" → p ≠ str "gcp" →
      (process_task t p env fe ops).output_path =
        some (pyReplace
          ((splitextStr (basenameStr (urlPath s))).1 ++
            (splitextStr (basenameStr (urlPath s))).2)
          ((splitextStr (basenameStr (urlPath s))).1 ++ str "_h265.mp4") s)) := by
  have hsrcres : resolved_source t p env = some s := by
    rw [resolved_source, resolve_source_path, hsrc]
    rw [if_neg]
    rw [falsyOpt]
    cases s with
    | nil => exact absurd rfl hs
    | cons c cs => simp
  have htr : truthy (resolved_source t p env) = true := by
    rw [hsrcres, truthy, falsyOpt]
    cases s with
    | nil => exact absurd rfl hs
    | cons c cs => simp
  have hcond : t.action = some (str "convert_h265") ∧
      truthy (resolved_source t p env) = true := ⟨ha, htr⟩
  refine ⟨?_, ?_, ?_, ?_, ?_⟩
  · intro hp henv hb
    subst hp
    have hbne : ¬(List.isEmpty b = true) := by
      cases b with
      | nil => exact absurd rfl hb
      | cons c cs => simp
    rw [process_task_output_path, resolved_output, resolve_output_path,
      if_pos hout, if_pos hcond, if_pos rfl, hsrcres, henv]
    simp only [Option.getD_some]
    rw [if_neg hbne]
    simp [List.append_assoc]
  · intro hp henv
    subst hp
    rw [process_task_output_path, resolved_output, resolve_output_path,
      if_pos hout, if_pos hcond, if_pos rfl]
    cases hbk : env.awsDestinationBucket with
    | none => rfl
    | some bk =>
      rw [hbk] at henv
      simp only [falsyOpt] at henv
      simp only [Option.getD_some]
      rw [if_pos henv]
  · intro hp henv hb
    subst hp
    have hbne : ¬(List.isEmpty b = true) := by
      cases b with
      | nil => exact absurd rfl hb
      | cons c cs => simp
    rw [process_task_output_path, resolved_output, resolve_output_path,
      if_pos hout, if_pos hcond,
      if_neg (by decide : ¬(str "gcp" = str "aws")), if_pos rfl, hsrcres, henv]
    simp only [Option.getD_some]
    rw [if_neg hbne]
    simp [List.append_assoc]
  · intro hp henv
    subst hp
    rw [process_task_output_path, resolved_output, resolve_output_path,
      if_pos hout, if_pos hcond,
      if_neg (by decide : ¬(str "gcp" = str "aws")), if_pos rfl]
    cases hbk : env.gcpDestinationBucket with
    | none => rfl
    | some bk =>
      rw [hbk] at henv
      simp only [falsyOpt] at henv
      simp only [Option.getD_some]
      rw [if_pos henv]
  · intro hp1 hp2
    rw [process_task_output_path, resolved_output, resolve_output_path,
      if_pos hout, if_pos hcond, if_neg hp1, if_neg hp2, hsrcres]
    rfl

/-- C6 amended witness: the bucket-set and provider-else conclusions at
the concrete convert task. -/
theorem convert_output_fallback_witness :
    (process_task taskConvert (str "aws") envOut feBagInvalid opsAllOk).output_path =
      some (str "s3://out/data_h265.mp4") ∧
    (process_task taskConvert (str "local") envUnset feBagInvalid opsAllOk).output_path =
      some (str "s3://in/data_h265.mp4") := by
  constructor
  · rw [(convert_output_fallback taskConvert (str "aws") envOut feBagInvalid opsAllOk
      (str "s3://in/data.bag") (str "out") rfl rfl rfl (by decide)).1 rfl rfl (by decide)]
    decide
  · rw [(convert_output_fallback taskConvert (str "local") envUnset feBagInvalid opsAllOk
      (str "s3://in/data.bag") (str "out") rfl rfl rfl (by decide)).2.2.2.2
      (by decide) (by decide)]
    decide

/-! ## More string-model lemmas -/

theorem takeWhile_append_all (P : Char → Bool) (l1 l2 : Str)
    (h : ∀ a ∈ l1, P a = true) :
    (l1 ++ l2).takeWhile P = l1 ++ l2.takeWhile P := by
  induction l1 with
  | nil => simp
  | cons c cs ih =>
    rw [List.cons_append, List.takeWhile_cons, if_pos (h c (List.mem_cons_self c cs)),
      ih (fun a ha => h a (List.mem_cons_of_mem c ha)), List.cons_append]

theorem basenameStr_no_slash (p : Str) (h : ∀ c ∈ p, c ≠ '/') :
    basenameStr p = p := by
  rw [basenameStr, List.takeWhile_eq_self_iff.mpr, List.reverse_reverse]
  intro c hc
  simpa using h c (List.mem_reverse.mp hc)

theorem basenameStr_append_no_slash (p q : Str) (h : ∀ c ∈ q, c ≠ '/') :
    basenameStr (p ++ q) = basenameStr p ++ q := by
  rw [basenameStr, basenameStr, List.reverse_append,
    takeWhile_append_all _ q.reverse p.reverse
      (fun a ha => by simpa using h a (List.mem_reverse.mp ha)),
    List.reverse_append, List.reverse_reverse]

/-- `pyReplace` over `a ++ pat` when the pattern starts with `\x7b` and `a`
has no brace: exactly the final occurrence is replaced. -/
theorem pyReplace_concrete_tail (pt rep a : Str) (ha : ('\x7b' : Char) ∉ a) :
    pyReplace ('\x7b' :: pt) rep (a ++ ('\x7b' :: pt)) = a ++ rep := by
  rw [pyReplace_append_no_brace pt rep a _ ha]
  have h := pyReplace_head_match ('\x7b' :: pt) rep (by simp) []
  rw [List.append_nil] at h
  rw [h]
  simp [pyReplace, pyReplaceAux]

/-! ## Format detector claims -/

/-- File oracle with the `rosbags` library unavailable. -/
def feNoRosbags : FileEnv := ⟨true, false, true, true, true, true, false, true, true⟩

/-- C5 counterexample: with the `rosbags` library importable, the file
`scan.bag` is classified `rosbag` although it does not open as a valid ROS
bag container (`bagOpensOk = false`): `is_rosbag` never opens the file, so
extension plus library availability alone decide the classification. -/
theorem rosbag_requires_open_counterexample :
    feBagInvalid.rosbagsAvailable = true ∧
    feBagInvalid.bagOpensOk = false ∧
    (detect_format (str "scan.bag") feBagInvalid).type = str "rosbag" := by
  decide

/-- C5 amended: classification of an existing `.bag` file as `rosbag`
depends only on the extension and the importability of the `rosbags`
library: when the library is available every `.bag` file is classified
`rosbag` regardless of whether it opens as a valid container (container
validity only affects the best-effort `details`), and when the library is
unavailable nothing is classified `rosbag`. -/
theorem rosbag_extension_only (p : Str) (fe : FileEnv) :
    (fe.present = true → endsWithStr p (str ".bag") = true →
      fe.rosbagsAvailable = true → (detect_format p fe).type = str "rosbag") ∧
    (fe.rosbagsAvailable = false → (detect_format p fe).type ≠ str "rosbag") := by
  constructor
  · intro hp he hr
    have hrb : is_rosbag p fe = true := by
      rw [is_rosbag, he, hr]
      rfl
    simp [detect_format, hp, hrb]
  · intro hr
    cases hfp : fe.present with
    | false =>
      simp only [detect_format, hfp, Bool.not_false, if_true]
      decide
    | true =>
      have hrb : is_rosbag p fe = false := by
        rw [is_rosbag, hr, Bool.and_false]
      simp only [detect_format, hfp, Bool.not_true, Bool.false_eq_true, if_false, hrb]
      repeat' split
      all_goals first
        | exact (by decide : str "mcap" ≠ str "rosbag")
        | exact (by decide : str "hdf5" ≠ str "rosbag")
        | exact (by decide : str "video" ≠ str "rosbag")
        | exact (by decide : str "image" ≠ str "rosbag")
        | exact (by decide : str "archive" ≠ str "rosbag")
        | exact (by decide : str "unknown" ≠ str "rosbag")

/-- C5 amended witness: `scan.bag` with the library available (invalid
container) versus unavailable. -/
theorem rosbag_extension_only_witness :
    (detect_format (str "scan.bag") feBagInvalid).type = str "rosbag" ∧
    (detect_format (str "scan.bag") feNoRosbags).type ≠ str "rosbag" :=
  ⟨(rosbag_extension_only (str "scan.bag") feBagInvalid).1 rfl (by decide) rfl,
   (rosbag_extension_only (str "scan.bag") feNoRosbags).2 rfl⟩

/-! ## Rename pattern claim -/

/-- C9: for input file `report.csv` and pattern `{basename}_{date}`, the
computed filename is `report_` ++ date ++ `.csv`, for any all-digit
rendering of the current date: the placeholders are substituted and the
original extension is re-appended because the computed name lost it. -/
theorem rename_pattern_basename_date (ce : ClockEnv)
    (hd : ce.date.all Char.isDigit = true) :
    process_pattern (str "\x7bbasename\x7d_\x7bdate\x7d") (str "report.csv") [] ce =
      str "report_" ++ ce.date ++ str ".csv" := by
  have hnb : ('\x7b' : Char) ∉ str "report_" ++ ce.date := by
    intro hmem
    rcases List.mem_append.mp hmem with h | h
    · exact absurd h (by decide)
    · exact absurd (List.all_eq_true.mp hd _ h) (by decide)
  have hdot : ('.' : Char) ∉ str "report_" ++ ce.date := by
    intro hmem
    rcases List.mem_append.mp hmem with h | h
    · exact absurd h (by decide)
    · exact absurd (List.all_eq_true.mp hd _ h) (by decide)
  have hslash : ∀ c ∈ str "report_" ++ ce.date, c ≠ '/' := by
    intro c hc he
    subst he
    rcases List.mem_append.mp hc with h | h
    · exact absurd h (by decide)
    · exact absurd (List.all_eq_true.mp hd _ h) (by decide)
  simp only [process_pattern, List.map_nil, List.append_nil, List.foldl_cons,
    List.foldl_nil]
  rw [(by decide : basenameStr (str "report.csv") = str "report.csv"),
    (by decide : (splitextStr (str "report.csv")).1 = str "report"),
    (by decide : (splitextStr (str "report.csv")).2 = str ".csv"),
    (by decide : pyReplace (str "\x7bfilename\x7d") (str "report.csv")
      (str "\x7bbasename\x7d_\x7bdate\x7d") = str "\x7bbasename\x7d_\x7bdate\x7d"),
    (by decide : pyReplace (str "\x7bbasename\x7d") (str "report")
      (str "\x7bbasename\x7d_\x7bdate\x7d") = str "report_\x7bdate\x7d"),
    (by decide : pyReplace (str "\x7bext\x7d") (str ".csv")
      (str "report_\x7bdate\x7d") = str "report_\x7bdate\x7d"),
    pyReplace_no_occur (str "\x7btimestamp\x7d") ce.timestamp
      (str "report_\x7bdate\x7d") (by decide)]
  have s5 : pyReplace (str "\x7bdate\x7d") ce.date (str "report_\x7bdate\x7d") =
      str "report_" ++ ce.date := by
    rw [(by decide : str "report_\x7bdate\x7d" =
        str "report_" ++ ('\x7b' :: str "date\x7d")),
      (by decide : str "\x7bdate\x7d" = '\x7b' :: str "date\x7d"),
      pyReplace_concrete_tail (str "date\x7d") ce.date (str "report_") (by decide)]
  rw [s5,
    (by decide : str "\x7btime\x7d" = '\x7b' :: str "time\x7d"),
    pyReplace_brace_miss (str "time\x7d") ce.time _ hnb,
    (by decide : str "\x7buuid\x7d" = '\x7b' :: str "uuid\x7d"),
    pyReplace_brace_miss (str "uuid\x7d") ce.uuid _ hnb,
    (by decide : str "\x7buuid_short\x7d" = '\x7b' :: str "uuid_short\x7d"),
    pyReplace_brace_miss (str "uuid_short\x7d") (ce.uuid.takeWhile fun c => c ≠ '-') _ hnb]
  have hend : endsWithStr (str "report_" ++ ce.date) (str ".csv") = false := by
    rw [endsWithStr]
    by_contra h
    rw [Bool.not_eq_false] at h
    exact hdot ((List.isSuffixOf_iff_suffix.mp h).subset (by decide))
  have hcont : (basenameStr (str "report_" ++ ce.date)).contains '.' = false := by
    rw [basenameStr_no_slash _ hslash]
    by_contra h
    rw [Bool.not_eq_false] at h
    exact hdot (by simpa using h)
  rw [hend, hcont]
  simp [List.append_assoc]

/-- C9 witness: a concrete date rendering. -/
theorem rename_pattern_basename_date_witness :
    process_pattern (str "\x7bbasename\x7d_\x7bdate\x7d") (str "report.csv") []
      ⟨str "20261012_120000", str "20261012", str "120000", str "ab12-cd"⟩ =
      str "report_20261012.csv" := by
  rw [rename_pattern_basename_date
    ⟨str "20261012_120000", str "20261012", str "120000", str "ab12-cd"⟩ (by decide)]
  decide

/-! ## End-to-end compress scenario (C8) -/

theorem detect_format_extension (p : Str) (fe : FileEnv) (hp : fe.present = true) :
    (detect_format p fe).extension = lowerStr (splitextStr p).2 := by
  simp only [detect_format, hp, Bool.not_true, Bool.false_eq_true, if_false]
  repeat' split
  all_goals rfl

theorem takeWhile_ne_dot_gab (rest : Str) :
    List.takeWhile (fun c => c ≠ '.') ('g' :: 'a' :: 'b' :: '.' :: rest) =
      ['g', 'a', 'b'] := by
  rw [List.takeWhile_cons, if_pos (by decide), List.takeWhile_cons, if_pos (by decide),
    List.takeWhile_cons, if_pos (by decide), List.takeWhile_cons, if_neg (by decide)]

theorem splitextStr_input_bag (ts : Str) (h : ∀ c ∈ ts, c ≠ '/') :
    (splitextStr (str "/tmp/processing/input_" ++ ts ++ str ".bag")).2 =
      str ".bag" := by
  have hq : ∀ c ∈ ts ++ str ".bag", c ≠ '/' := by
    intro c hc
    rcases List.mem_append.mp hc with h1 | h1
    · exact h c h1
    · intro he
      subst he
      exact absurd h1 (by decide)
  have hb : basenameStr (str "/tmp/processing/input_" ++ ts ++ str ".bag") =
      str "input_" ++ (ts ++ str ".bag") := by
    rw [List.append_assoc, basenameStr_append_no_slash _ _ hq,
      (by decide : basenameStr (str "/tmp/processing/input_") = str "input_")]
  have hrev : (str "input_" ++ (ts ++ str ".bag")).reverse =
      'g' :: 'a' :: 'b' :: '.' :: (ts.reverse ++ (str "input_").reverse) := by
    rw [List.reverse_append, List.reverse_append,
      (by decide : (str ".bag").reverse = 'g' :: 'a' :: 'b' :: '.' :: ([] : Str))]
    simp [List.append_assoc]
  have hany : ((ts.reverse ++ (str "input_").reverse).reverse.any
      (fun c => c ≠ '.')) = true := by
    rw [List.reverse_append, List.reverse_reverse, List.reverse_reverse,
      List.any_append, (by decide : (str "input_").any (fun c => c ≠ '.') = true)]
    rfl
  simp only [splitextStr, hb, hrev, takeWhile_ne_dot_gab, List.length_cons,
    List.length_nil, List.drop_succ_cons, List.drop_zero]
  rw [if_pos hany]
  rfl

theorem compress_file_staged_bag (ts : Str) (fe : FileEnv)
    (hts : ∀ c ∈ ts, c ≠ '/') (hfp : fe.present = true) :
    compress_file (str "/tmp/processing/input_" ++ ts ++ str ".bag") fe =
      { ok := fe.gzipOk, kind := some ArtifactKind.gzipStream } := by
  rw [compress_file, detect_format_extension _ _ hfp, splitextStr_input_bag ts hts, hfp]
  rw [if_neg (by decide : ¬((!true) = true)),
    if_pos (by decide : lowerStr (lowerStr (str ".bag")) = str ".bag")]

/-- C8: for the task `{action: compress, source_path: s3://in/data.bag}`
with no `output_path`, provider `aws`, and a non-empty destination bucket
`b`, the executor synthesizes `output_path = s3://b/output_<task_id>`,
stages the input at `/tmp/processing/input_<task_id>.bag` (extension
preserved), and the compress operation takes the gzip single-stream
branch, not the zip-archive branch, because the staged file's detected
extension is `.bag`. -/
theorem compress_bag_scenario (ts b : Str) (env : BucketEnv) (fe : FileEnv)
    (ops : OpEnv) (hts : ∀ c ∈ ts, c ≠ '/')
    (henv : env.awsDestinationBucket = some b) (hb : b ≠ [])
    (hd : ops.downloadOk = true) (hfp : fe.present = true)
    (hgz : fe.gzipOk = true) :
    (process_task ⟨some ts, some (str "compress"), some (str "s3://in/data.bag"), none⟩
        (str "aws") env fe ops).output_path =
      some (str "s3://" ++ b ++ str "/output_" ++ ts) ∧
    (process_task ⟨some ts, some (str "compress"), some (str "s3://in/data.bag"), none⟩
        (str "aws") env fe ops).local_input =
      str "/tmp/processing/input_" ++ ts ++ str ".bag" ∧
    (process_task ⟨some ts, some (str "compress"), some (str "s3://in/data.bag"), none⟩
        (str "aws") env fe ops).compressed = some ArtifactKind.gzipStream := by
  have hsrc : resolved_source
      ⟨some ts, some (str "compress"), some (str "s3://in/data.bag"), none⟩
      (str "aws") env = some (str "s3://in/data.bag") := by
    rw [resolved_source, resolve_source_path,
      if_neg (by decide : ¬(falsyOpt (some (str "s3://in/data.bag")) = true))]
  have hlin : staged_input
      ⟨some ts, some (str "compress"), some (str "s3://in/data.bag"), none⟩
      (str "aws") env = str "/tmp/processing/input_" ++ ts ++ str ".bag" := by
    rw [staged_input, hsrc,
      if_pos (by decide : truthy (some (str "s3://in/data.bag")) = true),
      (by decide : (splitextStr ((some (str "s3://in/data.bag")).getD [])).2 =
        str ".bag")]
    rw [(by decide : work_dir ++ str "/input_" = str "/tmp/processing/input_")]
    rfl
  have hbne : ¬(List.isEmpty b = true) := by
    cases b with
    | nil => exact absurd rfl hb
    | cons c cs => simp
  refine ⟨?_, ?_, ?_⟩
  · rw [process_task_output_path, resolved_output, resolve_output_path,
      if_pos (by decide : falsyOpt (none : Option Str) = true)]
    rw [if_neg]
    · rw [if_pos rfl, henv]
      simp only [Option.getD_some]
      rw [if_neg hbne]
      rfl
    · intro hc
      exact absurd hc.1
        ((by decide : ¬(some (str "compress") = some (str "convert_h265"))))
  · rw [process_task_local_input, hlin]
  · have hcok : (compress_file (staged_input
        ⟨some ts, some (str "compress"), some (str "s3://in/data.bag"), none⟩
        (str "aws") env) fe).ok = true := by
      rw [hlin, compress_file_staged_bag ts fe hts hfp]
      exact hgz
    have h := (process_task_compress_ok
      ⟨some ts, some (str "compress"), some (str "s3://in/data.bag"), none⟩
      (str "aws") env fe ops rfl hd hcok).1
    rw [h, hlin, compress_file_staged_bag ts fe hts hfp]

/-- C8 witness: the concrete task id `t1` and bucket `out`. -/
theorem compress_bag_scenario_witness :
    (process_task taskCompress (str "aws") envOut feBagInvalid opsAllOk).output_path =
      some (str "s3://out/output_t1") ∧
    (process_task taskCompress (str "aws") envOut feBagInvalid opsAllOk).local_input =
      str "/tmp/processing/input_t1.bag" ∧
    (process_task taskCompress (str "aws") envOut feBagInvalid opsAllOk).compressed =
      some ArtifactKind.gzipStream := by
  have h := compress_bag_scenario (str "t1") (str "out") envOut feBagInvalid opsAllOk
    (by decide) rfl (by decide) rfl rfl rfl
  simp only [taskCompress]
  refine ⟨?_, ?_, ?_⟩
  · rw [h.1]
    decide
  · rw [h.2.1]
    decide
  · exact h.2.2

end HCFPS
